import Mathlib

/-!
Verification of the anomaly-scoring core of the Anomaly Detector
application (`app.py`, `dashboard.py`).

Machine doubles are modelled by exact rationals.  The one place where IEEE
special values matter — dividing by a zero standard deviation in
`scipy.stats.zscore` — is modelled explicitly by keeping a z-score in the
exact form `(v - μ, σ²)` and interpreting it as the double
`(v - μ) / sqrt σ²`, which is `NaN` precisely when `σ² = 0` forces `0/0`
(the only case arising from data, since a zero variance makes every
deviation zero).
-/

namespace AnomalyDetector

/-- A cell of a numeric column: `none` is a missing value (a `NaN` in the
pandas frame), `some v` a numeric value. -/
abbrev Cell := Option ℚ

/-- `Series.dropna()` on a column of cells: the non-missing values in
original row order. -/
def dropna (col : List Cell) : List ℚ := col.filterMap id

/-- `numpy.mean` of the given values. -/
def mean (xs : List ℚ) : ℚ := xs.sum / xs.length

/-- `numpy.std(ddof=0)` squared: the population variance, the sum of
squared deviations divided by `N` (not `N - 1`). -/
def popVar (xs : List ℚ) : ℚ :=
  (xs.map (fun v => (v - mean xs) ^ 2)).sum / xs.length

/-- One entry of the array returned by `scipy.stats.zscore`, kept in exact
form: `num = v - μ` and `var = σ²`.  Its value as an IEEE double is
`num / sqrt var`; when `var = 0` that double is the `NaN` produced by
`0/0` (data always forces `num = 0` together with `var = 0`). -/
structure ZScore where
  num : ℚ
  var : ℚ
deriving Repr, DecidableEq

/-- `scipy.stats.zscore(xs)` with the default `ddof = 0`: one score per
input value, in input order. -/
def zscoreCol (xs : List ℚ) : List ZScore :=
  xs.map (fun v => ⟨v - mean xs, popVar xs⟩)

/-- The score is the IEEE `NaN` arising from `0/0`: zero variance together
with a zero numerator. -/
def ZScore.isNaN (z : ZScore) : Bool :=
  decide (z.var = 0) && decide (z.num = 0)

/-- The score denotes the finite real number `x`. -/
def ZScore.hasVal (z : ZScore) (x : ℝ) : Prop :=
  0 < z.var ∧ (z.num : ℝ) = x * Real.sqrt (z.var : ℝ)

/-- The two anomaly labels assigned by `update_analysis`. -/
inductive Label where
  | Normal
  | Abnormal
deriving Repr, DecidableEq

/-- The float comparison `abs(x) > z_score_threshold` from the labelling
lambda in `update_analysis` (app.py line 427), under IEEE semantics for
the value `num / sqrt var`: every comparison with `NaN` is false; an
infinite magnitude exceeds every finite threshold; a finite magnitude
`|num| / sqrt var` exceeds `t` iff `t < 0` or `t² · var < num²`. -/
def absGtThreshold (z : ZScore) (t : ℚ) : Bool :=
  if z.var = 0 then decide (z.num ≠ 0)
  else decide (t < 0) || decide (t ^ 2 * z.var < z.num ^ 2)

/-- `lambda x: 'Abnormal' if abs(x) > z_score_threshold else 'Normal'`
(app.py lines 426-428). -/
def labelOf (z : ZScore) (t : ℚ) : Label :=
  if absGtThreshold z t then .Abnormal else .Normal

/-- The pandas dtypes distinguished by the guard in `update_analysis`;
`object` stands for any dtype other than `int64` and `float64`. -/
inductive Dtype where
  | int64
  | float64
  | object
deriving Repr, DecidableEq

/-- One named column of the uploaded frame. -/
structure Column where
  name : String
  dtype : Dtype
  cells : List Cell
deriving Repr, DecidableEq

/-- The uploaded frame: its columns in order. -/
abbrev DataFrame := List Column

/-- Column lookup, `df[name]`. -/
def DataFrame.find (df : DataFrame) (n : String) : Option Column :=
  List.find? (fun c => c.name == n) df

/-- `dtype in ['int64', 'float64']`. -/
def isNumericDtype : Dtype → Bool
  | .int64 => true
  | .float64 => true
  | .object => false

/-- The guard of app.py line 422: the selected feature exists and has a
numeric dtype. -/
def validFeature (df : DataFrame) (sel : String) : Bool :=
  match df.find sel with
  | none => false
  | some c => isNumericDtype c.dtype

/-- `df['z_score'] = zscore(df[selected_feature].dropna())` (app.py
line 425).  `scipy.stats.zscore` returns a plain array over the
non-missing values only; pandas accepts the column assignment exactly when
the array length matches the number of rows and otherwise raises
`ValueError`, which propagates out of the callback. -/
def assignScores (cells : List Cell) : Except String (List ZScore) :=
  let zs := zscoreCol (dropna cells)
  if zs.length = cells.length then .ok zs
  else .error "Length of values does not match length of index"

/-- Choice of the scatter axes (app.py lines 430-435): `x` is the selected
feature; `y` is the first other numeric column when one exists, otherwise
the selected feature itself, which is then replaced by the literal column
name `"index"` (and `df['index']` is overwritten with the row ordinals). -/
def chooseAxes (numericCols : List String) (selected : String) :
    String × String :=
  let otherFeatures := numericCols.filter (fun c => c ≠ selected)
  let scatterY :=
    match otherFeatures with
    | [] => selected
    | c :: _ => c
  if selected = scatterY then (selected, "index") else (selected, scatterY)

/-- The data outputs of the `update_analysis` callback (app.py lines
414-508): the early placeholder return, an uncaught exception, or the
computed scores, labels, scatter axes, anomalous rows (original index with
score) and anomaly count. -/
inductive AnalysisOutput where
  | placeholder
  | failure (msg : String)
  | result (scores : List ZScore) (labels : List Label)
      (axes : String × String) (anomalousRows : List (ℕ × ZScore))
      (anomalyCount : ℕ)
deriving Repr, DecidableEq

/-- The `update_analysis` callback (app.py lines 414-508), restricted to
its data outputs.  It guards on the selected feature, assigns the z-score
column, labels every row, chooses the scatter axes and collects the
`Abnormal` rows together with their original index. -/
def update_analysis (df : DataFrame) (numericCols : List String)
    (selected : String) (t : ℚ) : AnalysisOutput :=
  match df.find selected with
  | none => .placeholder
  | some c =>
    if isNumericDtype c.dtype then
      match assignScores c.cells with
      | .error m => .failure m
      | .ok zs =>
        let labels := zs.map (fun z => labelOf z t)
        let anomalous :=
          zs.enum.filter (fun p => decide (labelOf p.2 t = .Abnormal))
        .result zs labels (chooseAxes numericCols selected) anomalous
          anomalous.length
    else .placeholder

/-- The three risk tiers of `classify_risk`. -/
inductive Risk where
  | Low
  | Medium
  | High
deriving Repr, DecidableEq

/-- `classify_risk` from dashboard.py lines 67-75; Python float division is
modelled by exact rational division. -/
def classify_risk (count total : ℕ) : Risk :=
  if total = 0 then .Low
  else if (count : ℚ) / (total : ℚ) > 0.5 then .High
  else if (count : ℚ) / (total : ℚ) > 0.2 then .Medium
  else .Low

/-- The fixed attack categories of `generate_smart_report`
(dashboard.py line 647), in declaration order. -/
def attack_types : List String :=
  ["DDoS", "DoS", "Port Scan", "Brute Force", "Botnet", "Web Attacks"]

/-- The summary-table rows built by `generate_smart_report`
(dashboard.py lines 663-670): one `(attack_type, count)` row per attack
type with positive count, visited in the declaration order of
`attack_types`; no sorting is applied anywhere before the rows are
returned.  The seeded pseudo-random counts are abstracted as a function
from attack type to count. -/
def report_rows (counts : String → ℕ) : List (String × ℕ) :=
  (attack_types.map (fun a => (a, counts a))).filter (fun p => 0 < p.2)

/-- The ordering the specification demands of the summary table: count
descending, ties broken by category name ascending.  This definition
follows the words of the specification, to be compared with
`report_rows`. -/
def specSummarySorted (rows : List (String × ℕ)) : Bool :=
  match rows with
  | [] => true
  | [_] => true
  | p :: q :: rest =>
    (decide (q.2 < p.2) || (decide (p.2 = q.2) && decide (p.1 ≤ q.1))) &&
      specSummarySorted (q :: rest)

/-- A concrete assignment of counts used to refute the sortedness of the
summary table: one DDoS incident and three DoS incidents. -/
def countsCE : String → ℕ :=
  fun a => if a = "DoS" then 3 else if a = "DDoS" then 1 else 0

/-- The concrete column of the specification scenario: values
1, 2, 3, 4, 100, none of them missing. -/
def scenarioColumn : List Cell :=
  [some 1, some 2, some 3, some 4, some 100]

/-!  Helper lemmas. -/

/-- The sum of a constant list. -/
theorem sum_of_const {c : ℚ} :
    ∀ {xs : List ℚ}, (∀ v ∈ xs, v = c) → xs.sum = c * xs.length := by
  intro xs
  induction xs with
  | nil => intro _; simp
  | cons a l ih =>
    intro h
    have ha : a = c := h a (List.mem_cons_self a l)
    have hl : ∀ v ∈ l, v = c := fun v hv => h v (List.mem_cons_of_mem a hv)
    simp [ha, ih hl]
    ring

/-- The mean of a nonempty constant list is that constant. -/
theorem mean_of_const {c : ℚ} {xs : List ℚ} (hne : xs ≠ [])
    (h : ∀ v ∈ xs, v = c) : mean xs = c := by
  have hn : xs.length ≠ 0 := fun h0 => hne (List.length_eq_zero.mp h0)
  have hlen : (xs.length : ℚ) ≠ 0 := Nat.cast_ne_zero.mpr hn
  rw [mean, sum_of_const h, mul_div_assoc, div_self hlen, mul_one]

/-- The population variance of a constant list is zero. -/
theorem popVar_of_const {c : ℚ} {xs : List ℚ} (h : ∀ v ∈ xs, v = c) :
    popVar xs = 0 := by
  cases xs with
  | nil => simp [popVar]
  | cons a l =>
    have hne : (a :: l) ≠ ([] : List ℚ) := by simp
    have hm : mean (a :: l) = c := mean_of_const hne h
    have hz : ((a :: l).map (fun v => (v - mean (a :: l)) ^ 2)).sum = 0 := by
      have hall : ∀ v ∈ (a :: l).map (fun v => (v - mean (a :: l)) ^ 2), v = 0 := by
        intro v hv
        rcases List.mem_map.mp hv with ⟨w, hw, rfl⟩
        rw [hm, h w hw]
        ring
      rw [sum_of_const hall, zero_mul]
    rw [popVar, hz, zero_div]

/-- Pushing a positive-count filter through the pairing map of
`report_rows`. -/
theorem filter_pair_map (counts : String → ℕ) (l : List String) :
    (l.map (fun a => (a, counts a))).filter (fun p => decide (0 < p.2))
      = (l.filter (fun a => decide (0 < counts a))).map
          (fun a => (a, counts a)) := by
  induction l with
  | nil => rfl
  | cons a t ih =>
    simp only [List.map_cons, List.filter_cons]
    by_cases h : 0 < counts a
    · simp [h, ih]
    · simp [h, ih]

/-- Lower bound on the standard deviation of the scenario column. -/
theorem sqrt1522_lo : (39.0128 : ℝ) < Real.sqrt 1522 := by
  rw [Real.lt_sqrt (by norm_num)]
  norm_num

/-- Upper bound on the standard deviation of the scenario column. -/
theorem sqrt1522_hi : Real.sqrt 1522 < 39.0129 := by
  rw [Real.sqrt_lt' (by norm_num)]
  norm_num

/-!  Claims. -/

/-- C1 counterexample: for the scenario column `[1, 2, 3, 4, 100]` the
code computes the population variance `1522`, whose square root is more
than `0.05` away from the claimed `σ ≈ 38.93`, and the z-score of the last
row `78 / √1522 ≈ 1.9993` is more than `0.003` away from the claimed
`2.003`. -/
theorem C1_counterexample :
    popVar (dropna scenarioColumn) = 1522 ∧
    (0.05 : ℝ) < |Real.sqrt ((popVar (dropna scenarioColumn) : ℚ) : ℝ) - 38.93| ∧
    (0.003 : ℝ) <
      |(78 : ℝ) / Real.sqrt ((popVar (dropna scenarioColumn) : ℚ) : ℝ) - 2.003| := by
  have hp : popVar (dropna scenarioColumn) = 1522 := by
    norm_num [scenarioColumn, popVar, mean, dropna, List.filterMap]
  have hcast : ((popVar (dropna scenarioColumn) : ℚ) : ℝ) = 1522 := by
    rw [hp]; norm_num
  have hs0 : (0 : ℝ) < Real.sqrt 1522 := lt_trans (by norm_num) sqrt1522_lo
  refine ⟨hp, ?_, ?_⟩
  · rw [hcast]
    have h1 : (0.05 : ℝ) < Real.sqrt 1522 - 38.93 := by
      have := sqrt1522_lo
      linarith
    exact lt_of_lt_of_le h1 (le_abs_self _)
  · rw [hcast]
    have hz : (78 : ℝ) / Real.sqrt 1522 < 2 := by
      rw [div_lt_iff₀ hs0]
      have := sqrt1522_lo
      linarith
    have h2 : (0.003 : ℝ) < -((78 : ℝ) / Real.sqrt 1522 - 2.003) := by linarith
    exact lt_of_lt_of_le h2 (neg_le_abs _)

/-- C1 amended: for the scenario column `[1, 2, 3, 4, 100]` with threshold
`1.5`, the code computes the mean `22`, the population variance `1522`
(population standard deviation `√1522 ≈ 39.013`, not `38.93`), z-scores
within `0.001` of `[-0.538, -0.513, -0.487, -0.461, 1.999]` (not
`[-0.539, -0.514, -0.488, -0.462, 2.003]`), each of the form
`(v - μ) / σ` in original row order, and labels only the last row (value
`100`) Abnormal. -/
theorem C1_amended :
    mean (dropna scenarioColumn) = 22 ∧
    popVar (dropna scenarioColumn) = 1522 ∧
    zscoreCol (dropna scenarioColumn)
      = [⟨-21, 1522⟩, ⟨-20, 1522⟩, ⟨-19, 1522⟩, ⟨-18, 1522⟩, ⟨78, 1522⟩] ∧
    (zscoreCol (dropna scenarioColumn)).map (fun z => labelOf z 1.5)
      = [.Normal, .Normal, .Normal, .Normal, .Abnormal] ∧
    |(-21 : ℝ) / Real.sqrt 1522 + 0.538| < 0.001 ∧
    |(-20 : ℝ) / Real.sqrt 1522 + 0.513| < 0.001 ∧
    |(-19 : ℝ) / Real.sqrt 1522 + 0.487| < 0.001 ∧
    |(-18 : ℝ) / Real.sqrt 1522 + 0.461| < 0.001 ∧
    |(78 : ℝ) / Real.sqrt 1522 - 1.999| < 0.001 := by
  have hs0 : (0 : ℝ) < Real.sqrt 1522 := lt_trans (by norm_num) sqrt1522_lo
  have hlo := sqrt1522_lo
  have hhi := sqrt1522_hi
  refine ⟨by norm_num [scenarioColumn, mean, dropna, List.filterMap],
    by norm_num [scenarioColumn, popVar, mean, dropna, List.filterMap],
    by norm_num [scenarioColumn, zscoreCol, popVar, mean, dropna, List.filterMap],
    by norm_num [scenarioColumn, zscoreCol, popVar, mean, dropna, List.filterMap,
      labelOf, absGtThreshold],
    ?_, ?_, ?_, ?_, ?_⟩
  · have hb1 : (-0.539 : ℝ) < (-21) / Real.sqrt 1522 := by
      rw [lt_div_iff₀ hs0]; linarith
    have hb2 : (-21 : ℝ) / Real.sqrt 1522 < -0.537 := by
      rw [div_lt_iff₀ hs0]; linarith
    rw [abs_lt]; constructor <;> linarith
  · have hb1 : (-0.514 : ℝ) < (-20) / Real.sqrt 1522 := by
      rw [lt_div_iff₀ hs0]; linarith
    have hb2 : (-20 : ℝ) / Real.sqrt 1522 < -0.512 := by
      rw [div_lt_iff₀ hs0]; linarith
    rw [abs_lt]; constructor <;> linarith
  · have hb1 : (-0.488 : ℝ) < (-19) / Real.sqrt 1522 := by
      rw [lt_div_iff₀ hs0]; linarith
    have hb2 : (-19 : ℝ) / Real.sqrt 1522 < -0.486 := by
      rw [div_lt_iff₀ hs0]; linarith
    rw [abs_lt]; constructor <;> linarith
  · have hb1 : (-0.462 : ℝ) < (-18) / Real.sqrt 1522 := by
      rw [lt_div_iff₀ hs0]; linarith
    have hb2 : (-18 : ℝ) / Real.sqrt 1522 < -0.460 := by
      rw [div_lt_iff₀ hs0]; linarith
    rw [abs_lt]; constructor <;> linarith
  · have hb1 : (1.998 : ℝ) < 78 / Real.sqrt 1522 := by
      rw [lt_div_iff₀ hs0]; linarith
    have hb2 : (78 : ℝ) / Real.sqrt 1522 < 2.000 := by
      rw [div_lt_iff₀ hs0]; linarith
    rw [abs_lt]; constructor <;> linarith

/-- C2: for a finite score (positive variance) the label is `Abnormal` iff
the magnitude of the double `num / √var` strictly exceeds the threshold;
in particular a magnitude exactly equal to the threshold is `Normal`. -/
theorem C2_label_iff (z : ZScore) (t : ℚ) (hv : 0 < z.var) :
    (labelOf z t = .Abnormal ↔
      (t : ℝ) < |(z.num : ℝ) / Real.sqrt (z.var : ℝ)|) ∧
    (|(z.num : ℝ) / Real.sqrt (z.var : ℝ)| = (t : ℝ) →
      labelOf z t = .Normal) := by
  have hvR : (0 : ℝ) < (z.var : ℝ) := by exact_mod_cast hv
  have hs : 0 < Real.sqrt (z.var : ℝ) := Real.sqrt_pos.mpr hvR
  have hs2 : Real.sqrt (z.var : ℝ) ^ 2 = (z.var : ℝ) := Real.sq_sqrt hvR.le
  have habs : |(z.num : ℝ) / Real.sqrt (z.var : ℝ)|
      = |(z.num : ℝ)| / Real.sqrt (z.var : ℝ) := by
    rw [abs_div, abs_of_pos hs]
  have key : labelOf z t = .Abnormal ↔ (t < 0 ∨ t ^ 2 * z.var < z.num ^ 2) := by
    rw [labelOf, absGtThreshold, if_neg (ne_of_gt hv)]
    by_cases h1 : t < 0 <;> by_cases h2 : t ^ 2 * z.var < z.num ^ 2 <;>
      simp [h1, h2]
  have main : labelOf z t = .Abnormal ↔
      (t : ℝ) < |(z.num : ℝ) / Real.sqrt (z.var : ℝ)| := by
    rw [key, habs]
    constructor
    · rintro (h1 | h2)
      · have h1R : (t : ℝ) < 0 := by exact_mod_cast h1
        exact lt_of_lt_of_le h1R (by positivity)
      · have h2R : (t : ℝ) ^ 2 * (z.var : ℝ) < (z.num : ℝ) ^ 2 := by
          exact_mod_cast h2
        rcases lt_or_le (t : ℝ) 0 with h | h
        · exact lt_of_lt_of_le h (by positivity)
        · rw [lt_div_iff₀ hs]
          nlinarith [sq_abs (z.num : ℝ), abs_nonneg (z.num : ℝ),
            mul_nonneg h hs.le]
    · intro hlt
      rcases lt_or_le t 0 with h | h
      · exact .inl h
      · right
        have hR : (0 : ℝ) ≤ (t : ℝ) := by exact_mod_cast h
        rw [lt_div_iff₀ hs] at hlt
        have : (t : ℝ) ^ 2 * (z.var : ℝ) < (z.num : ℝ) ^ 2 := by
          nlinarith [sq_abs (z.num : ℝ), abs_nonneg (z.num : ℝ),
            mul_nonneg hR hs.le]
        exact_mod_cast this
  refine ⟨main, fun heq => ?_⟩
  have hnot : ¬ labelOf z t = .Abnormal := by
    rw [main, heq]
    exact lt_irrefl _
  rw [labelOf] at hnot ⊢
  cases hab : absGtThreshold z t
  · rw [if_neg (by simp)]
  · rw [hab] at hnot
    simp at hnot

/-- C2 witness: the score `3 / √4 = 1.5` with threshold `1` is labelled
`Abnormal`, instantiating the boundary characterisation. -/
theorem C2_label_iff_witness :
    (0 < (ZScore.mk 3 4).var) ∧
    ((labelOf ⟨3, 4⟩ 1 = .Abnormal ↔
      ((1 : ℚ) : ℝ) <
        |((ZScore.mk 3 4).num : ℝ) / Real.sqrt (((ZScore.mk 3 4).var : ℚ) : ℝ)|) ∧
     (|((ZScore.mk 3 4).num : ℝ) / Real.sqrt (((ZScore.mk 3 4).var : ℚ) : ℝ)|
        = ((1 : ℚ) : ℝ) → labelOf ⟨3, 4⟩ 1 = .Normal)) :=
  ⟨by norm_num, C2_label_iff ⟨3, 4⟩ 1 (by norm_num)⟩

/-- C3 counterexample: on the degenerate column `[5, 5, 5, 5]` the code
produces four scores with zero variance and zero numerator — the IEEE
`NaN` of `0/0` — and such a score does not denote the finite value `0`. -/
theorem C3_counterexample :
    zscoreCol (dropna [some 5, some 5, some 5, some 5])
      = [⟨0, 0⟩, ⟨0, 0⟩, ⟨0, 0⟩, ⟨0, 0⟩] ∧
    ¬ (ZScore.mk 0 0).hasVal 0 := by
  constructor
  · norm_num [zscoreCol, dropna, mean, popVar, List.filterMap]
  · rintro ⟨hpos, -⟩
    exact absurd hpos (by norm_num)

/-- C3 amended: on a constant column every score is the `NaN` of a zero
standard deviation (not the finite value `0`), and — because every
comparison with `NaN` is false — every row is labelled `Normal` for every
threshold. -/
theorem C3_amended (xs : List ℚ) (c t : ℚ)
    (h : xs.all (fun v => decide (v = c)) = true) :
    (zscoreCol xs).all
      (fun z => z.isNaN && decide (labelOf z t = .Normal)) = true := by
  have hall : ∀ v ∈ xs, v = c := by
    intro v hv
    have := List.all_eq_true.mp h v hv
    simpa using this
  have hvar : popVar xs = 0 := popVar_of_const hall
  rw [List.all_eq_true]
  intro z hz
  rcases List.mem_map.mp hz with ⟨v, hv, rfl⟩
  have hne : xs ≠ [] := by
    intro h0
    rw [h0] at hv
    exact absurd hv (List.not_mem_nil v)
  have hm : mean xs = c := mean_of_const hne hall
  have hnum : v - mean xs = 0 := by rw [hm, hall v hv, sub_self]
  simp [ZScore.isNaN, labelOf, absGtThreshold, hnum, hvar]

/-- C3 witness: the degenerate column `[5, 5, 5, 5]` with threshold `3`
instantiates the amended claim: all scores `NaN`, all labels `Normal`. -/
theorem C3_amended_witness :
    ([(5 : ℚ), 5, 5, 5].all (fun v => decide (v = 5)) = true) ∧
    ((zscoreCol [(5 : ℚ), 5, 5, 5]).all
      (fun z => z.isNaN && decide (labelOf z 3 = .Normal)) = true) :=
  ⟨by norm_num, C3_amended [5, 5, 5, 5] 5 3 (by norm_num)⟩

/-- C4 counterexample: with threshold exactly `0` the middle row of
`[1, 2, 3]` (whose value equals the mean, so `z = 0` and `|z| > 0` is
false) is labelled `Normal`, and with the negative threshold `-1` every
row of the degenerate column `[5, 5]` (scores `NaN`) is labelled
`Normal` — so a threshold `≤ 0` does not make every non-missing row
`Abnormal`. -/
theorem C4_counterexample :
    (zscoreCol (dropna [some 1, some 2, some 3])).map (fun z => labelOf z 0)
      = [.Abnormal, .Normal, .Abnormal] ∧
    (zscoreCol (dropna [some 5, some 5])).map (fun z => labelOf z (-1))
      = [.Normal, .Normal] := by
  constructor <;>
    norm_num [zscoreCol, dropna, mean, popVar, labelOf, absGtThreshold,
      List.filterMap]

/-- C4 amended: for every strictly negative threshold, every row whose
score is not the `NaN` of a degenerate column is labelled `Abnormal`. -/
theorem C4_amended (z : ZScore) (t : ℚ) (ht : t < 0)
    (hz : z.isNaN = false) : labelOf z t = .Abnormal := by
  rw [labelOf, absGtThreshold]
  by_cases hv : z.var = 0
  · have hnum : z.num ≠ 0 := by
      rw [ZScore.isNaN] at hz
      simpa [hv] using hz
    rw [if_pos hv]
    simp [hnum]
  · rw [if_neg hv]
    simp [ht]

/-- C4 witness: the finite score `1 / √1` with threshold `-1` is labelled
`Abnormal`. -/
theorem C4_amended_witness :
    ((-1 : ℚ) < 0) ∧ (ZScore.mk 1 1).isNaN = false ∧
    labelOf ⟨1, 1⟩ (-1) = .Abnormal :=
  ⟨by norm_num, by norm_num [ZScore.isNaN],
    C4_amended ⟨1, 1⟩ (-1) (by norm_num) (by norm_num [ZScore.isNaN])⟩

/-- C5: on a column with a missing entry amid numeric values, the z-score
array covers only the non-missing values, the column assignment therefore
fails the length check, and the callback raises instead of returning
aligned outputs. -/
theorem C5_missing_values_raise :
    assignScores [some 1, none, some 3]
      = .error "Length of values does not match length of index" ∧
    update_analysis [⟨"f", Dtype.float64, [some 1, none, some 3]⟩] ["f"] "f" 3
      = .failure "Length of values does not match length of index" := by
  constructor
  · norm_num [assignScores, zscoreCol, dropna, List.filterMap]
  · norm_num [update_analysis, DataFrame.find, assignScores, zscoreCol, dropna,
      List.filterMap, List.find?, isNumericDtype]

/-- C6: `classify_risk` returns `Low` when the total is zero; otherwise it
returns `High` iff the ratio exceeds `1/2`, `Medium` iff the ratio is in
`(1/5, 1/2]` and `Low` iff the ratio is at most `1/5`; the four concrete
cases of the specification all hold. -/
theorem C6_classify_risk :
    (∀ count total : ℕ, 0 < total →
      ((classify_risk count total = .High ↔
          (0.5 : ℚ) < (count : ℚ) / (total : ℚ)) ∧
       (classify_risk count total = .Medium ↔
          ((0.2 : ℚ) < (count : ℚ) / (total : ℚ) ∧
            (count : ℚ) / (total : ℚ) ≤ 0.5)) ∧
       (classify_risk count total = .Low ↔
          (count : ℚ) / (total : ℚ) ≤ 0.2))) ∧
    classify_risk 0 0 = .Low ∧ classify_risk 5 10 = .Medium ∧
    classify_risk 6 10 = .High ∧ classify_risk 2 10 = .Low := by
  refine ⟨?_, by norm_num [classify_risk], by norm_num [classify_risk],
    by norm_num [classify_risk], by norm_num [classify_risk]⟩
  intro count total ht
  have h0 : total ≠ 0 := Nat.pos_iff_ne_zero.mp ht
  rw [classify_risk, if_neg h0]
  by_cases h1 : (count : ℚ) / (total : ℚ) > 0.5
  · rw [if_pos h1]
    refine ⟨⟨fun _ => h1, fun _ => rfl⟩,
      ⟨fun hx => Risk.noConfusion hx,
        fun hm => absurd h1 (not_lt.mpr hm.2)⟩,
      ⟨fun hx => Risk.noConfusion hx,
        fun hle => absurd h1 (not_lt.mpr (le_trans hle (by norm_num)))⟩⟩
  · rw [if_neg h1]
    by_cases h2 : (count : ℚ) / (total : ℚ) > 0.2
    · rw [if_pos h2]
      exact ⟨⟨fun hx => Risk.noConfusion hx, fun hgt => absurd hgt h1⟩,
        ⟨fun _ => ⟨h2, not_lt.mp h1⟩, fun _ => rfl⟩,
        ⟨fun hx => Risk.noConfusion hx,
          fun hle => absurd h2 (not_lt.mpr hle)⟩⟩
    · rw [if_neg h2]
      exact ⟨⟨fun hx => Risk.noConfusion hx, fun hgt => absurd hgt h1⟩,
        ⟨fun hx => Risk.noConfusion hx, fun hm => absurd hm.1 h2⟩,
        ⟨fun _ => not_lt.mp h2, fun _ => rfl⟩⟩

/-- C6 witness: `classify_risk 5 10 = Medium` because the ratio `1/2` lies
in `(0.2, 0.5]`. -/
theorem C6_classify_risk_witness :
    (0 < 10) ∧
    (classify_risk 5 10 = .Medium ↔
      ((0.2 : ℚ) < ((5 : ℕ) : ℚ) / ((10 : ℕ) : ℚ) ∧
        ((5 : ℕ) : ℚ) / ((10 : ℕ) : ℚ) ≤ 0.5)) :=
  ⟨by norm_num, (C6_classify_risk.1 5 10 (by norm_num)).2.1⟩

/-- C7 counterexample: with one DDoS incident and three DoS incidents the
summary rows are `[("DDoS", 1), ("DoS", 3)]` — the fixed declaration
order, which violates the claimed count-descending order. -/
theorem C7_counterexample :
    report_rows countsCE = [("DDoS", 1), ("DoS", 3)] ∧
    specSummarySorted (report_rows countsCE) = false := by
  constructor <;> decide

/-- C7 amended: for every assignment of counts, the summary rows are
exactly the attack types with positive count, in the fixed declaration
order of `attack_types` — no sorting by count or name is applied. -/
theorem C7_amended (counts : String → ℕ) :
    report_rows counts
      = (attack_types.filter (fun a => 0 < counts a)).map
          (fun a => (a, counts a)) := by
  rw [report_rows]
  exact filter_pair_map counts attack_types

/-- C8 counterexample: when the selected numeric column is itself named
`"index"` and is the only numeric column, both scatter axes end up being
the column named `"index"`. -/
theorem C8_counterexample :
    chooseAxes ["index"] "index" = ("index", "index") ∧
    (chooseAxes ["index"] "index").1 = (chooseAxes ["index"] "index").2 := by
  constructor <;> decide

/-- C8 amended: whenever the selected column is not named `"index"`, the
scatter projection uses the selected column as the x axis, never uses the
same column for both axes, and uses the first other numeric column as the
y axis — falling back to the synthetic `"index"` axis when no other
numeric column exists. -/
theorem C8_amended (cols : List String) (sel : String) (h : sel ≠ "index") :
    (chooseAxes cols sel).1 = sel ∧
    (chooseAxes cols sel).1 ≠ (chooseAxes cols sel).2 ∧
    (chooseAxes cols sel).2 = (cols.filter (fun c => c ≠ sel)).headD "index" := by
  rw [chooseAxes]
  cases hf : cols.filter (fun c => c ≠ sel) with
  | nil =>
    simp only [hf]
    refine ⟨rfl, ?_, rfl⟩
    simpa using h
  | cons c rest =>
    have hc : c ≠ sel := by
      have hmem : c ∈ cols.filter (fun c => c ≠ sel) := by
        rw [hf]; exact List.mem_cons_self c rest
      simpa using List.of_mem_filter hmem
    simp only [hf]
    rw [if_neg (fun hx => hc hx.symm)]
    exact ⟨rfl, fun hx => hc hx.symm, rfl⟩

/-- C8 witness: selecting `"a"` among numeric columns `["a", "b"]` puts
`"a"` on the x axis and `"b"` on the y axis. -/
theorem C8_amended_witness :
    (("a" : String) ≠ "index") ∧
    ((chooseAxes ["a", "b"] "a").1 = "a" ∧
     (chooseAxes ["a", "b"] "a").1 ≠ (chooseAxes ["a", "b"] "a").2 ∧
     (chooseAxes ["a", "b"] "a").2
       = ((["a", "b"].filter (fun c => c ≠ "a")).headD "index")) :=
  ⟨by decide, C8_amended ["a", "b"] "a" (by decide)⟩

/-- C9: the analysis is a pure function of its three data inputs — two
invocations on equal datasets, numeric-column lists, selected features and
thresholds return equal outputs. -/
theorem C9_deterministic (df1 df2 : DataFrame) (nc1 nc2 : List String)
    (sel1 sel2 : String) (t1 t2 : ℚ) (hdf : df1 = df2) (hnc : nc1 = nc2)
    (hsel : sel1 = sel2) (ht : t1 = t2) :
    update_analysis df1 nc1 sel1 t1 = update_analysis df2 nc2 sel2 t2 := by
  rw [hdf, hnc, hsel, ht]

/-- C9 witness: two invocations on a concrete one-column frame agree. -/
theorem C9_deterministic_witness :
    ([⟨"f", Dtype.int64, [some 1, some 2]⟩] : DataFrame)
        = [⟨"f", Dtype.int64, [some 1, some 2]⟩] ∧
    (["f"] : List String) = ["f"] ∧ ("f" : String) = "f" ∧ (3 : ℚ) = 3 ∧
    update_analysis [⟨"f", Dtype.int64, [some 1, some 2]⟩] ["f"] "f" 3
      = update_analysis [⟨"f", Dtype.int64, [some 1, some 2]⟩] ["f"] "f" 3 :=
  ⟨rfl, rfl, rfl, rfl,
    C9_deterministic _ _ _ _ _ _ _ _ rfl rfl rfl rfl⟩

/-- C10: when the selected feature is absent from the frame or its column
dtype is not `int64` or `float64`, the callback returns the placeholder
outputs without scoring and without raising. -/
theorem C10_invalid_feature (df : DataFrame) (nc : List String)
    (sel : String) (t : ℚ) (h : validFeature df sel = false) :
    update_analysis df nc sel t = .placeholder := by
  rw [update_analysis]
  rw [validFeature] at h
  cases hf : df.find sel with
  | none => rfl
  | some c =>
    rw [hf] at h
    have h2 : isNumericDtype c.dtype = false := h
    simp [h2]

/-- C10 witness: selecting a column of non-numeric dtype yields the
placeholder output. -/
theorem C10_invalid_feature_witness :
    validFeature [⟨"g", Dtype.object, [some 1]⟩] "g" = false ∧
    update_analysis [⟨"g", Dtype.object, [some 1]⟩] ["g"] "g" 3
      = .placeholder :=
  ⟨by decide, C10_invalid_feature _ _ _ _ (by decide)⟩

end AnomalyDetector
